import Mathlib

/-!
Verification development for `pose_vis/extension.py` of the labgraph
repository: the plugin-extension contract of the webcam pose-visualization
pipeline.  The file defines a shallow embedding of the module's three
declarations (`ExtensionResult`, `PoseVisExtensionBase`,
`PoseVisExtension`) together with the Python semantics they rely on
(abstract-base-class instantiation, attribute access, method binding), and
proves the specification's claims about them.
-/

namespace PoseVis

/-- Python exceptions that the embedded code can raise. -/
inductive PyError where
  | typeError
  | notImplementedError
  | attributeError
deriving DecidableEq, Repr

/-- The seven operations declared `@abstractmethod` on
`PoseVisExtensionBase`. -/
inductive MethodName where
  | register_args
  | check_enabled
  | setup
  | process_frame
  | cleanup
  | draw_overlay
  | check_output
deriving DecidableEq, Repr

/-- What the body of an abstract method on `PoseVisExtensionBase` does when
it is actually executed (e.g. via delegation from a subclass): either it
raises `NotImplementedError`, or it is a bare `pass` statement. -/
inductive BaseBehavior where
  | raisesNotImplementedError
  | passBody
deriving DecidableEq, Repr

/-- The body each abstract method of `PoseVisExtensionBase` carries in the
source: `register_args`, `check_enabled`, `process_frame`, `draw_overlay`
and `check_output` end in `raise NotImplementedError`, while `setup` and
`cleanup` end in `pass`. -/
def baseBody : MethodName → BaseBehavior
  | .register_args => .raisesNotImplementedError
  | .check_enabled => .raisesNotImplementedError
  | .setup => .passBody
  | .process_frame => .raisesNotImplementedError
  | .cleanup => .passBody
  | .draw_overlay => .raisesNotImplementedError
  | .check_output => .raisesNotImplementedError

/-- How a method of `PoseVisExtensionBase` is bound: `draw_overlay` and
`check_output` carry the `@classmethod` decorator in the source, the other
five are ordinary instance methods taking `self`. -/
inductive MethodKind where
  | instanceMethod
  | classMethod
deriving DecidableEq, Repr

/-- The binding kind of each contract operation, read off the decorators in
the source. -/
def methodKind : MethodName → MethodKind
  | .draw_overlay => .classMethod
  | .check_output => .classMethod
  | _ => .instanceMethod

/-- Python call semantics for invoking a contract operation on the class
object itself, with no constructed instance supplied: a `@classmethod`
receives the class as its implicit first argument and the call proceeds,
while an ordinary instance method is missing its required `self` argument
and the call raises `TypeError`. -/
def invokeOnClassOnly (m : MethodName) : Except PyError Unit :=
  match methodKind m with
  | .classMethod => .ok ()
  | .instanceMethod => .error .typeError

/-- The list of abstract methods recorded on `PoseVisExtensionBase` by
`ABCMeta`: every one of the seven operations is decorated
`@abstractmethod`. -/
def abstractMethods : List MethodName :=
  [.register_args, .check_enabled, .setup, .process_frame, .cleanup,
   .draw_overlay, .check_output]

/-- Python `ABCMeta` instantiation semantics for a concrete subclass of
`PoseVisExtensionBase`, characterized by which of the contract operations
it overrides: constructing an instance raises `TypeError` whenever at
least one abstract method is left unimplemented, and succeeds otherwise. -/
def instantiate (overrides : MethodName → Bool) : Except PyError Unit :=
  if abstractMethods.all (fun m => overrides m) then .ok () else .error .typeError

/-- `ExtensionResult`: the dataclass from the source, a record with the
single attribute `data` holding an opaque payload. -/
structure ExtensionResult (α : Type) where
  data : α
deriving DecidableEq, Repr

/-- Python's `None`, the implicit return value of a method body with no
`return` statement. -/
inductive PyNone where
  | none
deriving DecidableEq, Repr

/-- The attribute state of a `PoseVisExtension` instance: the
`extension_id` slot (absent until first assigned, since the class body only
carries the annotation `extension_id: int`), together with whatever other
attributes `ρ` a concrete subclass instance carries. -/
structure PVState (ρ : Type) where
  extension_id : Option Int
  rest : ρ
deriving DecidableEq, Repr

/-- A freshly constructed instance: the `extension_id` annotation in the
class body creates no attribute, so the slot starts absent. -/
def PVState.init (r : ρ) : PVState ρ :=
  { extension_id := none, rest := r }

/-- Python attribute read of `extension_id`: raises `AttributeError` while
the slot is absent, returns the stored integer once assigned. -/
def getExtensionId (s : PVState ρ) : Except PyError Int :=
  match s.extension_id with
  | some i => .ok i
  | none => .error .attributeError

/-- `PoseVisExtension.set_enabled`: the body is the single statement
`self.extension_id = extension_id`, and the method returns `None`. -/
def set_enabled (extension_id : Int) (s : PVState ρ) : PyNone × PVState ρ :=
  (PyNone.none, { s with extension_id := some extension_id })

/-- An operation of the class `PoseVisExtension` as invocable on one of its
instances: either one of the seven inherited contract operations (which, on
`PoseVisExtension` itself, execute the base-class bodies since the class
overrides none of them), or `set_enabled` with an integer argument. -/
inductive ClassOp where
  | invoke (m : MethodName)
  | set_enabled (i : Int)
deriving DecidableEq, Repr

/-- Whether a class operation is a `set_enabled` call. -/
def ClassOp.isSetEnabled : ClassOp → Bool
  | .set_enabled _ => true
  | _ => false

/-- Effect of one class operation on the instance state: inherited methods
run their base bodies (`pass` leaves the state untouched, the others raise
`NotImplementedError`), while `set_enabled i` stores `i` in
`extension_id`. -/
def stepOp (s : PVState ρ) : ClassOp → Except PyError (PVState ρ)
  | .invoke m =>
    match baseBody m with
    | .raisesNotImplementedError => .error .notImplementedError
    | .passBody => .ok s
  | .set_enabled i => .ok (set_enabled i s).2

/-- Run a sequence of class operations, halting at the first raised
exception. -/
def runOps (s : PVState ρ) : List ClassOp → Except PyError (PVState ρ)
  | [] => .ok s
  | op :: ops =>
    match stepOp s op with
    | .ok t => runOps t ops
    | .error e => .error e

/-- Repeatedly call `set_enabled` with the given arguments. -/
def runSetEnabled (ids : List Int) (s : PVState ρ) : PVState ρ :=
  ids.foldl (fun t i => (set_enabled i t).2) s

/-- Modelled from the spec: no concrete extension implementation is present
under `src/` (the source holds only the abstract declaration of
`check_enabled`), so a concrete extension's enablement check is modelled as
the spec describes it, a pure predicate over the parsed arguments. -/
structure ConcreteEnablement (Args : Type) where
  check_enabled : Args → Bool

/-- Invoking a concrete extension's `check_enabled` on an instance state:
the call computes the boolean from the parsed arguments and leaves the
instance state as it was. -/
def invokeCheckEnabled (e : ConcreteEnablement Args) (s : PVState ρ)
    (a : Args) : Bool × PVState ρ :=
  (e.check_enabled a, s)

/-- Modelled from the spec: no concrete `draw_overlay` implementation is
present under `src/` (the source holds only the abstract declaration), so
a concrete overlay renderer is modelled as the spec describes it, a
function from the display frame and the result to the annotated frame. -/
def invokeDrawOverlay (impl : Frame → ExtensionResult α → Frame)
    (f : Frame) (r : ExtensionResult α) : Frame × ExtensionResult α :=
  (impl f r, r)

end PoseVis

namespace PoseVis

/-- Helper: `runSetEnabled` never touches the attributes other than
`extension_id`. -/
theorem runSetEnabled_rest (ids : List Int) (s : PVState ρ) :
    (runSetEnabled ids s).rest = s.rest := by
  induction ids generalizing s with
  | nil => rfl
  | cons i ids ih =>
    simpa [runSetEnabled, set_enabled] using ih ((set_enabled i s).2)

/-- Helper: after a nonempty sequence of `set_enabled` calls the id slot
holds the last argument. -/
theorem runSetEnabled_last (ids : List Int) (i : Int) (s : PVState ρ) :
    (runSetEnabled (i :: ids) s).extension_id =
      some ((i :: ids).getLast (List.cons_ne_nil i ids)) := by
  induction ids generalizing i s with
  | nil => rfl
  | cons j ids ih =>
    rw [List.getLast_cons_cons]
    simpa [runSetEnabled] using ih j ((set_enabled i s).2)

/-- C1: instantiating a concrete subclass of `PoseVisExtensionBase`
succeeds exactly when all seven contract operations are overridden, and a
subclass leaving any of the seven abstract methods unimplemented raises
`TypeError` instead of producing an object. -/
theorem instantiation_requires_all_seven (overrides : MethodName → Bool) :
    (instantiate overrides = Except.ok () ↔ ∀ m, overrides m = true) ∧
    (∀ m : MethodName, m ∈ abstractMethods ∧ overrides m = false →
      instantiate overrides = Except.error PyError.typeError) := by
  have hiff : (abstractMethods.all fun m => overrides m) = true ↔
      ∀ m, overrides m = true := by
    rw [List.all_eq_true]
    constructor
    · intro h m
      exact h m (by cases m <;> simp [abstractMethods])
    · intro h m _
      exact h m
  constructor
  · constructor
    · intro h
      by_cases hc : (abstractMethods.all fun m => overrides m) = true
      · exact hiff.mp hc
      · simp [instantiate, hc] at h
    · intro h
      simp [instantiate, hiff.mpr h]
  · rintro m ⟨hm, hov⟩
    have hfalse : ¬ ((abstractMethods.all fun m => overrides m) = true) := by
      rw [List.all_eq_true]
      intro hall
      have := hall m hm
      rw [hov] at this
      exact Bool.false_ne_true this
    simp [instantiate, hfalse]

/-- Witness for C1: a subclass implementing every operation except `setup`
fails to instantiate with `TypeError`. -/
theorem instantiation_requires_all_seven_witness :
    instantiate (fun m => !(m == MethodName.setup)) =
      Except.error PyError.typeError :=
  (instantiation_requires_all_seven _).2 MethodName.setup ⟨by decide, by decide⟩

/-- C2: `set_enabled i` directly assigns the id: afterwards `extension_id`
holds `i`, and the call returns Python `None`. -/
theorem set_enabled_assigns_and_returns_none (i : Int) (s : PVState ρ) :
    (set_enabled i s).2.extension_id = some i ∧
    (set_enabled i s).1 = PyNone.none :=
  ⟨rfl, rfl⟩

/-- Counterexample for C3: after `set_enabled 0` has assigned the id, the
later class operation `set_enabled 1` changes it, so the code does not
enforce single assignment. -/
theorem extension_id_reassignment_counterexample :
    (set_enabled 0 (PVState.init ())).2.extension_id = some 0 ∧
    runOps (set_enabled 0 (PVState.init ())).2 [ClassOp.set_enabled 1] =
      Except.ok { extension_id := some 1, rest := () } ∧
    some (1 : Int) ≠ some (0 : Int) :=
  ⟨rfl, rfl, by decide⟩

/-- C3 (amended): once `set_enabled` has assigned `extension_id`, no
operation of the class other than a further `set_enabled` call changes its
value; single invocation of `set_enabled` is the host protocol's
obligation, not enforced by the class. -/
theorem extension_id_stable_without_set_enabled (ops : List ClassOp)
    (s t : PVState ρ) (hno : ops.all (fun op => !op.isSetEnabled) = true)
    (h : runOps s ops = Except.ok t) :
    t.extension_id = s.extension_id := by
  induction ops generalizing s with
  | nil =>
    simp [runOps] at h
    rw [← h]
  | cons op ops ih =>
    rw [List.all_cons, Bool.and_eq_true] at hno
    obtain ⟨h1, h2⟩ := hno
    cases op with
    | invoke m =>
      cases hb : baseBody m with
      | raisesNotImplementedError => simp [runOps, stepOp, hb] at h
      | passBody =>
        simp only [runOps, stepOp, hb] at h
        exact ih s h2 h
    | set_enabled i => simp [ClassOp.isSetEnabled] at h1

/-- Witness for C3 (amended): running `setup` then `cleanup` on an
instance whose id was assigned to 5 leaves the id at 5. -/
theorem extension_id_stable_without_set_enabled_witness :
    (PVState.mk (some 5) ()).extension_id =
      (PVState.mk (some 5) ()).extension_id :=
  extension_id_stable_without_set_enabled
    [ClassOp.invoke MethodName.setup, ClassOp.invoke MethodName.cleanup]
    (PVState.mk (some 5) ()) (PVState.mk (some 5) ()) (by decide) (by rfl)

/-- C4: on a freshly constructed instance the `extension_id` attribute is
absent, and reading it raises `AttributeError` rather than yielding a
default integer. -/
theorem extension_id_unset_on_fresh_instance (r : ρ) :
    getExtensionId (PVState.init r) = Except.error PyError.attributeError :=
  rfl

/-- C5: `ExtensionResult` is a record with exactly the one attribute
`data`: projecting a constructed value gives back the payload, and every
value is determined by that single field. -/
theorem extensionResult_single_attribute (α : Type) (d : α)
    (r : ExtensionResult α) :
    (ExtensionResult.mk d).data = d ∧ ExtensionResult.mk r.data = r :=
  ⟨rfl, rfl⟩

/-- C6: `draw_overlay` and `check_output` are class-level capabilities,
invocable on the class with no constructed instance, while the other five
contract operations require an instance and raise `TypeError` when called
without one. -/
theorem classmethods_invocable_without_instance :
    invokeOnClassOnly MethodName.draw_overlay = Except.ok () ∧
    invokeOnClassOnly MethodName.check_output = Except.ok () ∧
    invokeOnClassOnly MethodName.register_args = Except.error PyError.typeError ∧
    invokeOnClassOnly MethodName.check_enabled = Except.error PyError.typeError ∧
    invokeOnClassOnly MethodName.setup = Except.error PyError.typeError ∧
    invokeOnClassOnly MethodName.process_frame = Except.error PyError.typeError ∧
    invokeOnClassOnly MethodName.cleanup = Except.error PyError.typeError :=
  ⟨rfl, rfl, rfl, rfl, rfl, rfl, rfl⟩

/-- C7: `check_enabled` is a pure predicate over the parsed arguments:
equal argument values give equal booleans, and the call leaves the
instance state untouched. -/
theorem check_enabled_pure (e : ConcreteEnablement Args) (s : PVState ρ)
    (a1 a2 : Args) (h : a1 = a2) :
    (invokeCheckEnabled e s a1).1 = (invokeCheckEnabled e s a2).1 ∧
    (invokeCheckEnabled e s a1).2 = s := by
  subst h
  exact ⟨rfl, rfl⟩

/-- Witness for C7 at a concrete enablement predicate over integer
arguments. -/
theorem check_enabled_pure_witness :
    (invokeCheckEnabled (ConcreteEnablement.mk (fun a : Int => a == 0))
        (PVState.init ()) 3).1 =
      (invokeCheckEnabled (ConcreteEnablement.mk (fun a : Int => a == 0))
        (PVState.init ()) 3).1 ∧
    (invokeCheckEnabled (ConcreteEnablement.mk (fun a : Int => a == 0))
        (PVState.init ()) 3).2 = PVState.init () :=
  check_enabled_pure (ConcreteEnablement.mk (fun a : Int => a == 0))
    (PVState.init ()) 3 3 rfl

/-- C8: `draw_overlay` may transform the display frame but returns the
passed result unchanged. -/
theorem draw_overlay_preserves_result
    (impl : Frame → ExtensionResult α → Frame) (f : Frame)
    (r : ExtensionResult α) :
    (invokeDrawOverlay impl f r).2 = r :=
  rfl

/-- C9: the base-class bodies are inconsistent: `register_args`,
`check_enabled`, `process_frame`, `draw_overlay` and `check_output` raise
`NotImplementedError`, while `setup` and `cleanup` are bare `pass` bodies,
so delegating to the base `setup` or `cleanup` silently does nothing. -/
theorem base_bodies_inconsistent :
    baseBody MethodName.register_args = BaseBehavior.raisesNotImplementedError ∧
    baseBody MethodName.check_enabled = BaseBehavior.raisesNotImplementedError ∧
    baseBody MethodName.process_frame = BaseBehavior.raisesNotImplementedError ∧
    baseBody MethodName.draw_overlay = BaseBehavior.raisesNotImplementedError ∧
    baseBody MethodName.check_output = BaseBehavior.raisesNotImplementedError ∧
    baseBody MethodName.setup = BaseBehavior.passBody ∧
    baseBody MethodName.cleanup = BaseBehavior.passBody ∧
    (∀ (ρ : Type) (s : PVState ρ),
      stepOp s (ClassOp.invoke MethodName.setup) = Except.ok s ∧
      stepOp s (ClassOp.invoke MethodName.cleanup) = Except.ok s ∧
      stepOp s (ClassOp.invoke MethodName.register_args) =
        Except.error PyError.notImplementedError) :=
  ⟨rfl, rfl, rfl, rfl, rfl, rfl, rfl, fun _ _ => ⟨rfl, rfl, rfl⟩⟩

/-- C10: `set_enabled` has no precondition and modifies only
`extension_id`: any nonempty sequence of calls leaves every other
attribute unchanged and stores the last argument. -/
theorem set_enabled_sequence (ids : List Int) (s : PVState ρ)
    (h : ids ≠ []) :
    (runSetEnabled ids s).extension_id = some (ids.getLast h) ∧
    (runSetEnabled ids s).rest = s.rest := by
  cases ids with
  | nil => exact absurd rfl h
  | cons i ids => exact ⟨runSetEnabled_last ids i s, runSetEnabled_rest _ s⟩

/-- Witness for C10 at the concrete call sequence
`set_enabled 2; set_enabled 9`. -/
theorem set_enabled_sequence_witness :
    (runSetEnabled [2, 9] (PVState.init true)).extension_id =
      some (List.getLast [2, 9] (by decide)) ∧
    (runSetEnabled [2, 9] (PVState.init true)).rest =
      (PVState.init true).rest :=
  set_enabled_sequence [2, 9] (PVState.init true) (by decide)

end PoseVis
